import Mathlib

/-!
Verification of `gputemps.c`, a GPU thermal telemetry monitor.

The development shallowly embeds the program's pure computations
(register decoding, threshold banding, buffer position tracking,
PCI correlation) as Lean functions, and its effectful control flow
(the sampler, the two render cycles, the refresh loops, `main`) as
functions over explicit environments that record the outcomes of the
external calls (NVML queries, libpci records, `/dev/mem` access,
console input).  Machine integers are modelled as `Nat`/`Int` with
explicit `% 2^w` where the C arithmetic wraps.
-/

/-! ### Constants from the source -/

def REFRESH_DURATION : Nat := 1

def BUFFER_SIZE : Nat := 1024

def HOTSPOT_REGISTER_OFFSET : Nat := 0x0002046C

def VRAM_REGISTER_OFFSET : Nat := 0x0000E2A8

def GPU_TEMP_WARN : Nat := 70

def GPU_TEMP_DANGER : Nat := 85

def JUNCTION_TEMP_WARN : Nat := 80

def JUNCTION_TEMP_DANGER : Nat := 95

def VRAM_TEMP_WARN : Nat := 80

def VRAM_TEMP_DANGER : Nat := 95

/-! ### Register decoding (from `read_register_temp`, lines 228-232) -/

/-- The junction/hotspot branch of `read_register_temp`:
`*temp = (reg_value >> 8) & 0xff`. -/
def junction_decode (reg_value : Nat) : Nat :=
  (reg_value >>> 8) &&& 0xff

/-- The VRAM branch of `read_register_temp`:
`*temp = (reg_value & 0x00000fff) / 0x20`. -/
def vram_decode (reg_value : Nat) : Nat :=
  (reg_value &&& 0x00000fff) / 0x20

/-! ### Threshold banding (from `get_temp_color`, lines 127-131) -/

inductive Color where
  | green
  | yellow
  | red
  deriving DecidableEq

/-- `get_temp_color`: red when `temp >= danger`, else yellow when
`temp >= warn`, else green. -/
def get_temp_color (temp warn danger : Nat) : Color :=
  if danger ≤ temp then .red
  else if warn ≤ temp then .yellow
  else .green

/-! ### Output buffer accumulation (from `buffer_append`, lines 118-125)

`buffer_append` formats into `output_buffer + buffer_pos` with size
argument `remaining = BUFFER_SIZE - buffer_pos` and advances
`buffer_pos` only when `0 < written && written < remaining`.
`written` is the `vsnprintf` return value: the full formatted length
(which may exceed `remaining`, in which case the output was truncated),
or negative on error. -/

/-- The new `buffer_pos` after one `buffer_append` call whose
`vsnprintf` returned `written`. -/
def buffer_append_pos (buffer_pos : Nat) (written : Int) : Nat :=
  let remaining : Int := (BUFFER_SIZE : Int) - (buffer_pos : Int)
  if 0 < written ∧ written < remaining then buffer_pos + written.toNat
  else buffer_pos

/-- Modelled semantics of the external `vsnprintf(buf + pos, remaining, ...)`
call: the number of bytes it may store starting at index `pos`.  It writes
nothing when the size is zero (or on error), and otherwise at most
`written + 1` bytes (formatted text plus terminator) but never more than
`remaining` bytes. -/
def vsnprintf_extent (buffer_pos : Nat) (written : Int) : Nat :=
  let remaining : Int := (BUFFER_SIZE : Int) - (buffer_pos : Int)
  if remaining ≤ 0 ∨ written < 0 then 0
  else min (written.toNat + 1) remaining.toNat

/-! ### Theorems for C1, C7, C10 -/

/-- C1: for every raw 32-bit register word, the junction/hotspot decode
equals `(raw >> 8) & 0xFF` (i.e. `raw / 2^8 % 2^8`) and lies in
`[0,255]`, and the VRAM decode equals `(raw & 0xFFF) / 32`
(i.e. `raw % 2^12 / 32`) and lies in `[0,127]`. -/
theorem register_decode_ranges (raw : Nat) :
    junction_decode raw = raw / 2 ^ 8 % 2 ^ 8
    ∧ junction_decode raw ≤ 255
    ∧ vram_decode raw = raw % 2 ^ 12 / 32
    ∧ vram_decode raw ≤ 127 := by
  have hj : junction_decode raw = raw / 2 ^ 8 % 2 ^ 8 := by
    unfold junction_decode
    rw [show (0xff : Nat) = 2 ^ 8 - 1 from rfl,
      Nat.and_pow_two_sub_one_eq_mod, Nat.shiftRight_eq_div_pow]
  have hv : vram_decode raw = raw % 2 ^ 12 / 32 := by
    unfold vram_decode
    rw [show (0x00000fff : Nat) = 2 ^ 12 - 1 from rfl,
      Nat.and_pow_two_sub_one_eq_mod]
  refine ⟨hj, ?_, hv, ?_⟩
  · rw [hj]
    exact Nat.le_of_lt_succ (Nat.mod_lt _ (by norm_num))
  · rw [hv]
    calc raw % 2 ^ 12 / 32 ≤ 4095 / 32 :=
          Nat.div_le_div_right (Nat.le_of_lt_succ (Nat.mod_lt _ (by norm_num)))
      _ ≤ 127 := by norm_num

/-- C7: band selection uses inclusive lower bounds: with the core
thresholds (70/85), green iff `t < 70`, yellow iff `70 ≤ t < 85`,
red iff `85 ≤ t`; with the junction and VRAM thresholds (80/95),
green iff `t < 80`, yellow iff `80 ≤ t < 95`, red iff `95 ≤ t`;
in particular core 70 is warn, core 85 is danger, core 69 is normal. -/
theorem temp_color_bands (t : Nat) :
    (get_temp_color t GPU_TEMP_WARN GPU_TEMP_DANGER = .green ↔ t < 70)
    ∧ (get_temp_color t GPU_TEMP_WARN GPU_TEMP_DANGER = .yellow ↔ 70 ≤ t ∧ t < 85)
    ∧ (get_temp_color t GPU_TEMP_WARN GPU_TEMP_DANGER = .red ↔ 85 ≤ t)
    ∧ (get_temp_color t JUNCTION_TEMP_WARN JUNCTION_TEMP_DANGER = .green ↔ t < 80)
    ∧ (get_temp_color t JUNCTION_TEMP_WARN JUNCTION_TEMP_DANGER = .yellow ↔ 80 ≤ t ∧ t < 95)
    ∧ (get_temp_color t JUNCTION_TEMP_WARN JUNCTION_TEMP_DANGER = .red ↔ 95 ≤ t)
    ∧ (get_temp_color t VRAM_TEMP_WARN VRAM_TEMP_DANGER = .green ↔ t < 80)
    ∧ (get_temp_color t VRAM_TEMP_WARN VRAM_TEMP_DANGER = .yellow ↔ 80 ≤ t ∧ t < 95)
    ∧ (get_temp_color t VRAM_TEMP_WARN VRAM_TEMP_DANGER = .red ↔ 95 ≤ t)
    ∧ get_temp_color 70 GPU_TEMP_WARN GPU_TEMP_DANGER = .yellow
    ∧ get_temp_color 85 GPU_TEMP_WARN GPU_TEMP_DANGER = .red
    ∧ get_temp_color 69 GPU_TEMP_WARN GPU_TEMP_DANGER = .green := by
  unfold get_temp_color GPU_TEMP_WARN GPU_TEMP_DANGER JUNCTION_TEMP_WARN
    JUNCTION_TEMP_DANGER VRAM_TEMP_WARN VRAM_TEMP_DANGER
  refine ⟨?_, ?_, ?_, ?_, ?_, ?_, ?_, ?_, ?_, by norm_num, by norm_num, by norm_num⟩ <;>
    split_ifs <;> simp_all <;> omega

/-- C10: every `buffer_append` call preserves `buffer_pos ≤ BUFFER_SIZE`,
all bytes the contained `vsnprintf` call may store lie strictly inside
the 1024-byte buffer, and a formatted entry that does not fit in the
remaining space (`written ≥ remaining`) leaves `buffer_pos` unchanged. -/
theorem buffer_append_safe (pos : Nat) (written : Int) (h : pos ≤ BUFFER_SIZE) :
    buffer_append_pos pos written ≤ BUFFER_SIZE
    ∧ pos + vsnprintf_extent pos written ≤ BUFFER_SIZE
    ∧ ((BUFFER_SIZE : Int) - (pos : Int) ≤ written →
        buffer_append_pos pos written = pos) := by
  unfold buffer_append_pos vsnprintf_extent
  unfold BUFFER_SIZE at *
  dsimp only
  refine ⟨?_, ?_, ?_⟩
  · split <;> omega
  · split <;> omega
  · intro hw
    split <;> omega

/-- Witness for C10: at `buffer_pos = 1000` an entry of formatted length
2000 does not fit, and the position is unchanged. -/
theorem buffer_append_safe_witness : buffer_append_pos 1000 2000 = 1000 :=
  (buffer_append_safe 1000 2000 (by norm_num [BUFFER_SIZE])).2.2
    (by norm_num [BUFFER_SIZE])

/-! ### PCI data model and the Device Correlator (`get_gpu_temps`, lines 244-263) -/

/-- A libpci `struct pci_dev` record, restricted to the fields the program
reads (`PCI_FILL_IDENT | PCI_FILL_BASES`): `u16` vendor and device ids,
domain, bus, device slot, and `base_addr[0]` (a 64-bit `pciaddr_t`). -/
structure PciDev where
  vendor_id : Nat
  device_id : Nat
  domain : Nat
  bus : Nat
  dev : Nat
  base_addr0 : Nat
  deriving DecidableEq

/-- The PCI identity NVML reports for a device handle
(`nvmlPciInfo_t`): combined 32-bit device/vendor id, domain, bus, slot. -/
structure NvmlPciInfo where
  pciDeviceId : Nat
  domain : Nat
  bus : Nat
  device : Nat
  deriving DecidableEq

/-- The combined id the correlation loop computes:
`dev->device_id << 16 | dev->vendor_id`, compared against the unsigned
32-bit `pciDeviceId` (comparison happens at 32 bits). -/
def combined_id (d : PciDev) : Nat :=
  (d.device_id <<< 16 ||| d.vendor_id) % 2 ^ 32

/-- One record passes the correlation test when all four comparisons in
the loop body succeed (the loop `continue`s whenever any one fails). -/
def pci_match (d : PciDev) (info : NvmlPciInfo) : Bool :=
  combined_id d == info.pciDeviceId
    && d.domain == info.domain
    && d.bus == info.bus
    && d.dev == info.device

/-- The `for (dev = ctx->pacc->devices; dev; dev = dev->next)` scan:
the first record passing `pci_match` is the one used. -/
def correlate (devices : List PciDev) (info : NvmlPciInfo) : Option PciDev :=
  match devices with
  | [] => none
  | d :: rest => if pci_match d info then some d else correlate rest info

/-! ### Temperature Sampler (`get_gpu_temps`, lines 238-266) -/

/-- A per-device reading: core, junction and VRAM temperatures. -/
structure Sample where
  core : Nat
  junction : Nat
  vram : Nat
  deriving DecidableEq

/-- The step of `get_gpu_temps` at which a cycle failed. -/
inductive SampleError where
  | handleLookup
  | tempQuery
  | pciQuery
  | correlation
  | regJunction
  | regVram
  deriving DecidableEq

/-- Outcomes of the external calls `get_gpu_temps` makes, per device
index: NVML handle lookup, core-temperature query, PCI-identity query,
the captured PCI record list, and the result of each
`read_register_temp` call (`some t` iff it returned 0 having stored
`t`). -/
structure NvmlEnv where
  handleOk : Nat → Bool
  coreTemp : Nat → Option Nat
  pciInfo : Nat → Option NvmlPciInfo
  devices : List PciDev
  regRead : PciDev → Nat → Option Nat

/-- `get_gpu_temps`: handle lookup, core temperature, PCI identity,
correlation scan, junction register read, VRAM register read; the first
failing step aborts with the corresponding error. -/
def get_gpu_temps (env : NvmlEnv) (index : Nat) : Except SampleError Sample :=
  if !env.handleOk index then .error .handleLookup
  else match env.coreTemp index with
    | none => .error .tempQuery
    | some core =>
      match env.pciInfo index with
      | none => .error .pciQuery
      | some info =>
        match correlate env.devices info with
        | none => .error .correlation
        | some d =>
          match env.regRead d HOTSPOT_REGISTER_OFFSET with
          | none => .error .regJunction
          | some junction =>
            match env.regRead d VRAM_REGISTER_OFFSET with
            | none => .error .regVram
            | some vram => .ok ⟨core, junction, vram⟩

/-! ### Theorems for C2 -/

/-- The correlation scan returns the first matching record in list
order. -/
theorem correlate_eq_find (devices : List PciDev) (info : NvmlPciInfo) :
    correlate devices info = devices.find? (fun e => pci_match e info) := by
  induction devices with
  | nil => rfl
  | cons d rest ih =>
    simp only [correlate, List.find?]
    by_cases h : pci_match d info <;> simp [h, ih]

/-- C2: correlation succeeds iff the combined vendor/device id, domain,
bus and slot of some record all equal the reported identity
simultaneously; the first matching record in list order is used; a
record passes the test iff all four fields match; changing any single
one of the four fields of an otherwise-matching record makes the test
fail, and with only such a record present `get_gpu_temps` fails with a
correlation error. -/
theorem correlation_exact_and_total
    (devices : List PciDev) (info : NvmlPciInfo) (env : NvmlEnv)
    (index c : Nat) (d d' : PciDev)
    (hd : pci_match d info = true)
    (hflip : combined_id d' ≠ combined_id d ∨ d'.domain ≠ d.domain
      ∨ d'.bus ≠ d.bus ∨ d'.dev ≠ d.dev)
    (henv : env.devices = [d'])
    (hh : env.handleOk index = true)
    (hc : env.coreTemp index = some c)
    (hp : env.pciInfo index = some info) :
    ((correlate devices info).isSome ↔ ∃ e ∈ devices, pci_match e info = true)
    ∧ correlate devices info = devices.find? (fun e => pci_match e info)
    ∧ (∀ (e : PciDev) (i2 : NvmlPciInfo),
        pci_match e i2 = true ↔
          combined_id e = i2.pciDeviceId ∧ e.domain = i2.domain
            ∧ e.bus = i2.bus ∧ e.dev = i2.device)
    ∧ pci_match d' info = false
    ∧ get_gpu_temps env index = .error .correlation := by
  have hiff : ∀ (e : PciDev) (i2 : NvmlPciInfo),
      pci_match e i2 = true ↔
        combined_id e = i2.pciDeviceId ∧ e.domain = i2.domain
          ∧ e.bus = i2.bus ∧ e.dev = i2.device := by
    intro e i2
    simp [pci_match, Bool.and_eq_true, beq_iff_eq, and_assoc]
  have hfalse : pci_match d' info = false := by
    rcases (hiff d info).mp hd with ⟨h1, h2, h3, h4⟩
    apply Bool.eq_false_iff.mpr
    intro hm
    rcases (hiff d' info).mp hm with ⟨g1, g2, g3, g4⟩
    rcases hflip with hf | hf | hf | hf <;> apply hf <;> omega
  refine ⟨?_, correlate_eq_find devices info, hiff, hfalse, ?_⟩
  · rw [correlate_eq_find]
    simp [List.find?_isSome]
  · simp [get_gpu_temps, hh, hc, hp, henv, correlate, hfalse]

/-- Concrete PCI identity for the C2 witness. -/
def c2_info : NvmlPciInfo := ⟨0x268410DE, 0, 1, 0⟩

/-- Concrete matching record for the C2 witness. -/
def c2_dev : PciDev := ⟨0x10DE, 0x2684, 0, 1, 0, 0xF0000000⟩

/-- `c2_dev` with its bus field changed. -/
def c2_dev_flip : PciDev := ⟨0x10DE, 0x2684, 0, 2, 0, 0xF0000000⟩

/-- Sampler environment for the C2 witness: every NVML step succeeds and
the record list holds only the bus-flipped record. -/
def c2_env : NvmlEnv :=
  ⟨fun _ => true, fun _ => some 45, fun _ => some c2_info, [c2_dev_flip],
    fun _ _ => some 50⟩

/-- Witness for C2: flipping the bus field of the matching record makes
the test fail and the sampler returns the correlation error. -/
theorem correlation_exact_and_total_witness :
    pci_match c2_dev_flip c2_info = false
    ∧ get_gpu_temps c2_env 0 = .error .correlation := by
  have h := correlation_exact_and_total [c2_dev] c2_info c2_env 0 45 c2_dev
    c2_dev_flip (by decide) (Or.inr (Or.inr (Or.inl (by decide)))) rfl rfl rfl rfl
  exact ⟨h.2.2.2.1, h.2.2.2.2⟩

/-! ### Register Reader (`read_register_temp`, lines 210-236) -/

/-- Outcomes of the external calls `read_register_temp` makes:
whether `open("/dev/mem")` succeeds, whether `mmap` succeeds, and the
32-bit word physical memory holds at each address. -/
structure MemEnv where
  openOk : Bool
  mmapOk : Bool
  mem : Nat → Nat

/-- `reg_addr = (dev->base_addr[0] & 0xFFFFFFFF) + offset`, computed in
`uint32_t` arithmetic (the 64-bit `pciaddr_t` base is masked to its low
32 bits and the sum wraps modulo `2^32`). -/
def reg_addr (base_addr0 offset : Nat) : Nat :=
  ((base_addr0 &&& 0xFFFFFFFF) + offset % 2 ^ 32) % 2 ^ 32

/-- `base_offset = reg_addr & ~(PG_SZ-1)`: `PG_SZ` is a 64-bit `long`,
so `~(PG_SZ-1)` is the two's-complement bit pattern `2^64 - 2^pgExp`
(the page size being `2 ^ pgExp`), and the result is stored into a
`uint32_t`. -/
def base_offset (pgExp ra : Nat) : Nat :=
  (ra &&& (2 ^ 64 - 2 ^ pgExp)) % 2 ^ 32

/-- The `mmap(0, PG_SZ, PROT_READ, MAP_SHARED, fd, base_offset)` window:
mapped start address and length. -/
def register_window (pgExp ra : Nat) : Nat × Nat :=
  (base_offset pgExp ra, 2 ^ pgExp)

/-- The offset at which the word is read inside the window:
`reg_addr - base_offset` in `uint32_t` arithmetic. -/
def window_read_offset (pgExp ra : Nat) : Nat :=
  (2 ^ 32 + ra - base_offset pgExp ra) % 2 ^ 32

/-- The decode step of `read_register_temp`: `*temp` is assigned only
for the two known register offsets, otherwise left untouched. -/
def decode_register (offset reg_value : Nat) : Option Nat :=
  if offset = HOTSPOT_REGISTER_OFFSET then some (junction_decode reg_value)
  else if offset = VRAM_REGISTER_OFFSET then some (vram_decode reg_value)
  else none

/-- What one `read_register_temp` call did: the status it returned, the
temperature it stored (if any), and whether it unmapped the window and
closed the accessor. -/
structure RegResult where
  ret : Int
  temp : Option Nat
  unmapped : Bool
  closed : Bool
  deriving DecidableEq

/-- `read_register_temp`.  The last parameter models the return value of
the success path: the C function ends without a `return` statement
(control falls off the end of a non-void function after `munmap`/`close`),
so the status returned there is an indeterminate value, embedded as an
unconstrained parameter.  Both error paths return `-1` explicitly. -/
def read_register_temp (env : MemEnv) (pgExp base_addr0 offset : Nat)
    (fallthrough_ret : Int) : RegResult :=
  if !env.openOk then ⟨-1, none, false, false⟩
  else
    let ra := reg_addr base_addr0 offset
    let bo := base_offset pgExp ra
    if !env.mmapOk then ⟨-1, none, false, true⟩
    else
      let reg_value := env.mem (bo + window_read_offset pgExp ra)
      ⟨fallthrough_ret, decode_register offset reg_value, true, true⟩

/-! ### Theorems for C4 -/

/-- C4 (code bug): the two failure paths do return `-1` after closing
what was opened, and a successful mapping does unmap, close and store
the decoded temperature — but the status returned on that success path
is the indeterminate fall-through value of a missing `return`
statement, not the success code the claim requires: at the same input
it can be `-1` just as well as `0`. -/
theorem read_register_temp_missing_return :
    (read_register_temp ⟨false, true, fun _ => 0⟩ 12 0 HOTSPOT_REGISTER_OFFSET 0)
      = ⟨-1, none, false, false⟩
    ∧ (read_register_temp ⟨true, false, fun _ => 0⟩ 12 0 HOTSPOT_REGISTER_OFFSET 0)
      = ⟨-1, none, false, true⟩
    ∧ (read_register_temp ⟨true, true, fun _ => 0x1234⟩ 12 0 HOTSPOT_REGISTER_OFFSET (-1))
      = ⟨-1, some 0x12, true, true⟩
    ∧ (read_register_temp ⟨true, true, fun _ => 0x1234⟩ 12 0 HOTSPOT_REGISTER_OFFSET 0)
      = ⟨0, some 0x12, true, true⟩ := by
  refine ⟨rfl, rfl, by decide, by decide⟩

/-! ### Theorems for C5 -/

/-- For addresses below `2^32`, the C mask `& ~(PG_SZ-1)` computes the
page-floor: clearing the low `k` bits subtracts `a % 2^k`. -/
theorem land_high_mask (a k : Nat) (ha : a < 2 ^ 32) (hk : k ≤ 64) :
    a &&& (2 ^ 64 - 2 ^ k) = a - a % 2 ^ k := by
  have hsplit : 2 ^ 64 - 2 ^ k = 2 ^ k * (2 ^ (64 - k) - 1) := by
    have h1 : 2 ^ k * 2 ^ (64 - k) = 2 ^ 64 := by
      rw [← pow_add]
      congr 1
      omega
    have hM : 1 ≤ 2 ^ (64 - k) := Nat.one_le_two_pow
    have h3 : 2 ^ k * (2 ^ (64 - k) - 1) + 2 ^ k = 2 ^ k * 2 ^ (64 - k) := by
      rw [← Nat.mul_succ]
      congr 1
      omega
    omega
  have hq : a - a % 2 ^ k = 2 ^ k * (a / 2 ^ k) := by
    have := Nat.div_add_mod a (2 ^ k)
    omega
  apply Nat.eq_of_testBit_eq
  intro i
  rw [Nat.testBit_and, hsplit, Nat.testBit_mul_pow_two, hq,
    Nat.testBit_mul_pow_two, Nat.testBit_two_pow_sub_one,
    ← Nat.shiftRight_eq_div_pow, Nat.testBit_shiftRight]
  by_cases hik : k ≤ i
  · have hik' : i ≥ k := hik
    simp only [ge_iff_le, hik, decide_True, Bool.true_and]
    by_cases h64 : i < 64
    · have hlt : i - k < 64 - k := by omega
      have hki : k + (i - k) = i := by omega
      simp [hlt, hki]
    · have hge : (2 : Nat) ^ 32 ≤ 2 ^ i := Nat.pow_le_pow_right (by norm_num) (by omega)
      have hbit : a.testBit i = false := Nat.testBit_lt_two_pow (lt_of_lt_of_le ha hge)
      have hki : k + (i - k) = i := by omega
      have hnlt : ¬ (i - k < 64 - k) := by omega
      simp [hnlt, hki, hbit]
  · simp [hik]

/-- C5 counterexample: for a record whose BAR0 is `2^32` the claim as
stated fails — the mapped window start computed by the code is the
page-floor of the 32-bit-truncated address, not the page-floor of the
target `base + offset`. -/
theorem register_window_truncation_cex :
    (register_window 12 (reg_addr (2 ^ 32) HOTSPOT_REGISTER_OFFSET)).1
      ≠ (2 ^ 32 + HOTSPOT_REGISTER_OFFSET)
        - (2 ^ 32 + HOTSPOT_REGISTER_OFFSET) % 2 ^ 12 := by
  decide

/-- C5 amended: writing `ra` for the `uint32_t` target the code computes
(`(base & 0xFFFFFFFF) + offset` modulo `2^32`), the mapped window starts
exactly at the page-floor of `ra`, is exactly one page long, and the
word is read at offset `ra − page_floor(ra)` within the window; `ra`
coincides with the target `base + offset` whenever that sum is below
`2^32`. -/
theorem register_window_spec (pgExp base_addr0 offset : Nat)
    (hpg : pgExp ≤ 64) :
    (register_window pgExp (reg_addr base_addr0 offset)).1
      = reg_addr base_addr0 offset - reg_addr base_addr0 offset % 2 ^ pgExp
    ∧ (register_window pgExp (reg_addr base_addr0 offset)).2 = 2 ^ pgExp
    ∧ window_read_offset pgExp (reg_addr base_addr0 offset)
        = reg_addr base_addr0 offset % 2 ^ pgExp
    ∧ (base_addr0 + offset < 2 ^ 32 →
        reg_addr base_addr0 offset = base_addr0 + offset) := by
  have hra : reg_addr base_addr0 offset < 2 ^ 32 := Nat.mod_lt _ (by norm_num)
  have hmask := land_high_mask (reg_addr base_addr0 offset) pgExp hra hpg
  have hbo : base_offset pgExp (reg_addr base_addr0 offset)
      = reg_addr base_addr0 offset - reg_addr base_addr0 offset % 2 ^ pgExp := by
    unfold base_offset
    rw [hmask]
    exact Nat.mod_eq_of_lt (by omega)
  have hmod : reg_addr base_addr0 offset % 2 ^ pgExp ≤ reg_addr base_addr0 offset :=
    Nat.mod_le _ _
  refine ⟨hbo, rfl, ?_, ?_⟩
  · unfold window_read_offset
    rw [hbo]
    have h1 : 2 ^ 32 + reg_addr base_addr0 offset
        - (reg_addr base_addr0 offset - reg_addr base_addr0 offset % 2 ^ pgExp)
        = 2 ^ 32 + reg_addr base_addr0 offset % 2 ^ pgExp := by omega
    rw [h1, Nat.add_mod_left]
    exact Nat.mod_eq_of_lt (by omega)
  · intro hlt
    unfold reg_addr
    rw [show (0xFFFFFFFF : Nat) = 2 ^ 32 - 1 from rfl,
      Nat.and_pow_two_sub_one_eq_mod]
    rw [Nat.mod_eq_of_lt (show base_addr0 < 2 ^ 32 by omega),
      Nat.mod_eq_of_lt (show offset < 2 ^ 32 by omega)]
    exact Nat.mod_eq_of_lt hlt

/-- Witness for C5: with a 4 KiB page, BAR0 `0xF0000000` and the
hotspot register offset, the window starts at the page-floor of the
computed target address. -/
theorem register_window_spec_witness :
    (register_window 12 (reg_addr 0xF0000000 HOTSPOT_REGISTER_OFFSET)).1
      = reg_addr 0xF0000000 HOTSPOT_REGISTER_OFFSET
        - reg_addr 0xF0000000 HOTSPOT_REGISTER_OFFSET % 2 ^ 12 :=
  (register_window_spec 12 0xF0000000 HOTSPOT_REGISTER_OFFSET (by norm_num)).1

/-! ### Render cycles (`monitor_temperatures_table`, lines 268-289, and
`monitor_temperatures_json`, lines 291-310) -/

/-- A piece of output the program prints, modelled at token level. -/
inductive Chunk where
  | tableText (rows : List (Nat × Sample))
  | jsonOpen (ts : Int)
  | jsonSep
  | jsonDev (i : Nat) (s : Sample)
  | jsonClose
  | cursorDown (n : Nat)
  | blankLine
  deriving DecidableEq

/-- Result of one render cycle: the returned status, the device indices
the sampler was invoked for (in order), and the chunks printed during
the cycle. -/
structure CycleResult where
  status : Int
  sampled : List Nat
  output : List Chunk
  deriving DecidableEq

/-- The device loop of `monitor_temperatures_table`: arguments are the
number of remaining devices and the current index; returns the status,
the attempted indices, and the rows appended to the buffer. -/
def table_rows (env : NvmlEnv) : Nat → Nat → Int × List Nat × List (Nat × Sample)
  | 0, _ => (0, [], [])
  | m + 1, i =>
    match get_gpu_temps env i with
    | .error _ => (-1, [i], [])
    | .ok s =>
      let r := table_rows env m (i + 1)
      (r.1, i :: r.2.1, (i, s) :: r.2.2)

/-- `monitor_temperatures_table`: the whole frame (header, rows,
cursor-up) is accumulated in the output buffer and printed in a single
`printf` only after every device sampled; if any `get_gpu_temps` call
fails the function returns `-1` before that `printf`, printing
nothing. -/
def monitor_temperatures_table (env : NvmlEnv) (n : Nat) : CycleResult :=
  let r := table_rows env n 0
  if r.1 = 0 then ⟨0, r.2.1, [.tableText r.2.2]⟩ else ⟨r.1, r.2.1, []⟩

/-- The device loop of `monitor_temperatures_json`: each successfully
sampled device is printed immediately (preceded by a comma when not
first); a failure returns `-1` at once. -/
def json_devices (env : NvmlEnv) : Nat → Nat → Bool → Int × List Nat × List Chunk
  | 0, _, _ => (0, [], [])
  | m + 1, i, first =>
    match get_gpu_temps env i with
    | .error _ => (-1, [i], [])
    | .ok s =>
      let pre := if first then [Chunk.jsonDev i s]
        else [Chunk.jsonSep, Chunk.jsonDev i s]
      let r := json_devices env m (i + 1) false
      (r.1, i :: r.2.1, pre ++ r.2.2)

/-- `monitor_temperatures_json`: prints the object opening (with the
timestamp) before any sampling, streams per-device objects as they are
sampled, and prints the closing only when every device sampled. -/
def monitor_temperatures_json (env : NvmlEnv) (n : Nat) (ts : Int) : CycleResult :=
  let r := json_devices env n 0 true
  ⟨r.1, r.2.1,
    Chunk.jsonOpen ts :: (r.2.2 ++ if r.1 = 0 then [Chunk.jsonClose] else [])⟩

/-! ### Refresh loops (`run_monitoring_loop`, lines 339-349, and
`run_json_loop`, lines 351-359) -/

/-- Per-iteration loop environment: the sampler outcomes for each cycle,
the timestamp of each cycle, whether `handle_input` saw a keystroke
during the wait of each iteration, and the value of the signal-set
`running` flag observed at the top of each iteration. -/
structure LoopEnv where
  sampleEnv : Nat → NvmlEnv
  ts : Nat → Int
  keyAt : Nat → Bool
  runningAt : Nat → Bool

/-- Observable loop events: a render cycle, the bounded console-input
wait (recording whether a keystroke ended it), the extra `sleep`, and
directly printed chunks. -/
inductive Ev where
  | cycle (k : Nat) (r : CycleResult)
  | wait (ms : Nat) (key : Bool)
  | sleepSec (s : Nat)
  | out (c : Chunk)
  deriving DecidableEq

/-- `run_monitoring_loop`, embedded with explicit fuel (first `Nat`
argument, the iteration counter being the second): returns `none` when
the fuel runs out with the loop still running, otherwise the returned
status, together with the event trace. -/
def run_monitoring_loop (env : LoopEnv) (n : Nat) : Nat → Nat → Option Int × List Ev
  | 0, _ => (none, [])
  | fuel + 1, k =>
    if !env.runningAt k then
      (some 0, [.out (.cursorDown (n + 2)), .out .blankLine])
    else
      let c := monitor_temperatures_table (env.sampleEnv k) n
      if c.status ≠ 0 then (some (-1), [.cycle k c])
      else if env.keyAt k then
        (some 0, [.cycle k c, .wait (REFRESH_DURATION * 1000) true,
          .out (.cursorDown (n + 2)), .out .blankLine])
      else
        let r := run_monitoring_loop env n fuel (k + 1)
        (r.1, .cycle k c :: .wait (REFRESH_DURATION * 1000) false :: r.2)

/-- `run_json_loop`: like the table loop but with no epilogue prints and
with an unconditional extra `sleep(REFRESH_DURATION)` after every wait
that saw no keystroke. -/
def run_json_loop (env : LoopEnv) (n : Nat) : Nat → Nat → Option Int × List Ev
  | 0, _ => (none, [])
  | fuel + 1, k =>
    if !env.runningAt k then (some 0, [])
    else
      let c := monitor_temperatures_json (env.sampleEnv k) n (env.ts k)
      if c.status ≠ 0 then (some (-1), [.cycle k c])
      else if env.keyAt k then
        (some 0, [.cycle k c, .wait (REFRESH_DURATION * 1000) true])
      else
        let r := run_json_loop env n fuel (k + 1)
        (r.1, .cycle k c :: .wait (REFRESH_DURATION * 1000) false
          :: .sleepSec REFRESH_DURATION :: r.2)

/-! ### Argument scan and `main` (lines 361-426) -/

inductive OutputFormat where
  | FORMAT_TABLE
  | FORMAT_JSON
  deriving DecidableEq

inductive OutputMode where
  | MODE_CONTINUOUS
  | MODE_ONCE
  deriving DecidableEq

/-- Result of the argument scan in `main` (lines 383-396). -/
inductive ArgOutcome where
  | proceed (fmt : OutputFormat) (mode : OutputMode)
  | helpExit
  | unknownExit (a : String)
  deriving DecidableEq

/-- The `for (int i = 1; i < argc; i++)` scan over the argument list:
`--json` and `--once` set flags and continue; `--help` prints usage and
exits 0; anything else prints a diagnostic and usage and exits 1. -/
def parse_args : List String → OutputFormat → OutputMode → ArgOutcome
  | [], fmt, mode => .proceed fmt mode
  | a :: rest, fmt, mode =>
    if a = "--json" then parse_args rest .FORMAT_JSON mode
    else if a = "--once" then parse_args rest fmt .MODE_ONCE
    else if a = "--help" then .helpExit
    else .unknownExit a

/-- High-level events of one `main` run. -/
inductive MEv where
  | usage
  | unknownArgMsg (a : String)
  | termSetup (ok : Bool)
  | cursorHide
  | monInit (ok : Bool)
  | ev (e : Ev)
  deriving DecidableEq

/-- Environment for a `main` run: outcomes of terminal setup and of the
four initialization steps, the device count, the loop environment, and
the loop fuel. -/
structure MainEnv where
  terminalOk : Bool
  rootOk : Bool
  pciOk : Bool
  nvmlOk : Bool
  countOk : Bool
  deviceCount : Nat
  loopEnv : LoopEnv
  fuel : Nat

/-- `init_monitoring` (lines 312-324): root check, PCI init and scan,
NVML init, device count — succeeds only when all four do. -/
def init_monitoring (env : MainEnv) : Bool :=
  env.rootOk && env.pciOk && env.nvmlOk && env.countOk

/-- `main` (lines 378-426): argument scan; in table format terminal
setup (exit 1 on failure) and cursor hide; `init_monitoring` (exit 1 on
failure); dispatch to the four format/mode cases; final exit status is
`result == 0 ? 0 : 1`. -/
def main_model (args : List String) (env : MainEnv) : Option Int × List MEv :=
  match parse_args args .FORMAT_TABLE .MODE_CONTINUOUS with
  | .helpExit => (some 0, [.usage])
  | .unknownExit a => (some 1, [.unknownArgMsg a, .usage])
  | .proceed fmt mode =>
    let setupEvs : List MEv :=
      if fmt = .FORMAT_TABLE then
        .termSetup env.terminalOk :: if env.terminalOk then [.cursorHide] else []
      else []
    if fmt = .FORMAT_TABLE ∧ !env.terminalOk then (some 1, setupEvs)
    else if !init_monitoring env then (some 1, setupEvs ++ [.monInit false])
    else
      let pre := setupEvs ++ [.monInit true]
      match fmt, mode with
      | .FORMAT_JSON, .MODE_CONTINUOUS =>
        let r := run_json_loop env.loopEnv env.deviceCount env.fuel 0
        (r.1.map (fun x => if x = 0 then 0 else 1), pre ++ r.2.map .ev)
      | .FORMAT_JSON, .MODE_ONCE =>
        let c := monitor_temperatures_json (env.loopEnv.sampleEnv 0)
          env.deviceCount (env.loopEnv.ts 0)
        (some (if c.status = 0 then 0 else 1), pre ++ [.ev (.cycle 0 c)])
      | .FORMAT_TABLE, .MODE_CONTINUOUS =>
        let r := run_monitoring_loop env.loopEnv env.deviceCount env.fuel 0
        (r.1.map (fun x => if x = 0 then 0 else 1), pre ++ r.2.map .ev)
      | .FORMAT_TABLE, .MODE_ONCE =>
        let c := monitor_temperatures_table (env.loopEnv.sampleEnv 0) env.deviceCount
        (some (if c.status = 0 then 0 else 1), pre ++ [.ev (.cycle 0 c)])

/-- The number of render-cycle events in a `main` trace. -/
def count_cycles (tr : List MEv) : Nat :=
  tr.countP fun e => match e with
    | .ev (.cycle _ _) => true
    | _ => false

/-- The delay events (input waits and sleeps) of a loop trace. -/
def delay_events (tr : List Ev) : List Ev :=
  tr.filter fun e => match e with
    | .wait _ _ => true
    | .sleepSec _ => true
    | _ => false

/-! ### Shared concrete environments for witnesses -/

/-- A PCI identity whose record is present in `good_env`. -/
def good_info : NvmlPciInfo := ⟨0x268410DE, 0, 1, 0⟩

/-- The record matching `good_info`. -/
def good_dev : PciDev := ⟨0x10DE, 0x2684, 0, 1, 0, 0xF0000000⟩

/-- A sampler environment where every step succeeds for every device,
yielding core 45, junction 50, VRAM 50. -/
def good_env : NvmlEnv :=
  ⟨fun _ => true, fun _ => some 45, fun _ => some good_info, [good_dev],
    fun _ _ => some 50⟩

/-! ### Theorems for C3 -/

/-- If the first `t` devices sample successfully and device `i + t`
fails, the table device loop stops with status `-1` having attempted
exactly the indices `i .. i + t`. -/
theorem table_rows_fail (env : NvmlEnv) (e : SampleError) :
    ∀ (t i m : Nat), (∀ j, j < t → ∃ s, get_gpu_temps env (i + j) = .ok s) →
      get_gpu_temps env (i + t) = .error e → t < m →
      (table_rows env m i).1 = -1
      ∧ (table_rows env m i).2.1 = (List.range (t + 1)).map (i + ·) := by
  intro t
  induction t with
  | zero =>
    intro i m hok hf hm
    obtain ⟨m', rfl⟩ : ∃ m', m = m' + 1 := ⟨m - 1, by omega⟩
    rw [show i + 0 = i from rfl] at hf
    simp [table_rows, hf, List.range_succ]
  | succ t ih =>
    intro i m hok hf hm
    obtain ⟨m', rfl⟩ : ∃ m', m = m' + 1 := ⟨m - 1, by omega⟩
    obtain ⟨s, hs⟩ := hok 0 (by omega)
    rw [show i + 0 = i from rfl] at hs
    have ih' := ih (i + 1) m'
      (fun j hj => by
        obtain ⟨s2, hs2⟩ := hok (j + 1) (by omega)
        exact ⟨s2, by rw [show i + 1 + j = i + (j + 1) from by omega]; exact hs2⟩)
      (by rw [show i + 1 + t = i + (t + 1) from by omega]; exact hf)
      (by omega)
    simp only [table_rows, hs]
    refine ⟨ih'.1, ?_⟩
    simp only [ih'.2]
    conv_rhs => rw [List.range_succ_eq_map]
    simp only [List.map_cons, List.map_map]
    congr 1
    apply List.map_congr_left
    intro x _
    simp only [Function.comp_apply]
    omega

/-- Same statement for the JSON device loop (for any value of the
`first` flag). -/
theorem json_devices_fail (env : NvmlEnv) (e : SampleError) :
    ∀ (t i m : Nat) (first : Bool),
      (∀ j, j < t → ∃ s, get_gpu_temps env (i + j) = .ok s) →
      get_gpu_temps env (i + t) = .error e → t < m →
      (json_devices env m i first).1 = -1
      ∧ (json_devices env m i first).2.1 = (List.range (t + 1)).map (i + ·) := by
  intro t
  induction t with
  | zero =>
    intro i m first hok hf hm
    obtain ⟨m', rfl⟩ : ∃ m', m = m' + 1 := ⟨m - 1, by omega⟩
    rw [show i + 0 = i from rfl] at hf
    simp [json_devices, hf, List.range_succ]
  | succ t ih =>
    intro i m first hok hf hm
    obtain ⟨m', rfl⟩ : ∃ m', m = m' + 1 := ⟨m - 1, by omega⟩
    obtain ⟨s, hs⟩ := hok 0 (by omega)
    rw [show i + 0 = i from rfl] at hs
    have ih' := ih (i + 1) m' false
      (fun j hj => by
        obtain ⟨s2, hs2⟩ := hok (j + 1) (by omega)
        exact ⟨s2, by rw [show i + 1 + j = i + (j + 1) from by omega]; exact hs2⟩)
      (by rw [show i + 1 + t = i + (t + 1) from by omega]; exact hf)
      (by omega)
    simp only [json_devices, hs]
    refine ⟨ih'.1, ?_⟩
    simp only [ih'.2]
    conv_rhs => rw [List.range_succ_eq_map]
    simp only [List.map_cons, List.map_map]
    congr 1
    apply List.map_congr_left
    intro x _
    simp only [Function.comp_apply]
    omega

/-- Sampler environment failing at device 1: device 0 samples fine, the
handle lookup for any later device fails. -/
def c3_env : NvmlEnv :=
  ⟨fun i => i == 0, fun _ => some 45, fun _ => some good_info, [good_dev],
    fun _ _ => some 50⟩

/-- C3 counterexample: with two devices and a sampler failure at device
1, the records cycle returns failure but has already printed the object
opening and device 0's reading — so "nothing is rendered for that
cycle" is false for the records strategy. -/
theorem json_partial_render_cex :
    (monitor_temperatures_json c3_env 2 0).status = -1
    ∧ (monitor_temperatures_json c3_env 2 0).output
        = [.jsonOpen 0, .jsonDev 0 ⟨45, 50, 50⟩]
    ∧ (monitor_temperatures_json c3_env 2 0).output ≠ [] := by
  refine ⟨rfl, rfl, by decide⟩

/-- C3 (amended): a failure at any step of the sampler for device `t`
aborts sampling for the entire cycle — the cycle returns `-1` having
invoked the sampler only for devices `0..t`, so no later device is
sampled; in table mode nothing at all is rendered, while in records
mode the cycle's failure leaves the already-printed object opening (and
any earlier devices' objects) emitted; in continuous mode (either
strategy) the loop performs no further cycle and the process terminates
with exit code 1 rather than retrying. -/
theorem cycle_failure_aborts (env : NvmlEnv) (menv : MainEnv)
    (n t fuel : Nat) (e : SampleError) (ts : Int)
    (hok : ∀ j, j < t → ∃ s, get_gpu_temps env j = .ok s)
    (hf : get_gpu_temps env t = .error e)
    (ht : t < n)
    (hle : menv.loopEnv.sampleEnv 0 = env)
    (hrun : menv.loopEnv.runningAt 0 = true)
    (hts : menv.loopEnv.ts 0 = ts)
    (hterm : menv.terminalOk = true)
    (hinit : init_monitoring menv = true)
    (hcount : menv.deviceCount = n)
    (hfuel : menv.fuel = fuel + 1) :
    (monitor_temperatures_table env n).status = -1
    ∧ (monitor_temperatures_table env n).sampled = List.range (t + 1)
    ∧ (monitor_temperatures_table env n).output = []
    ∧ (monitor_temperatures_json env n ts).status = -1
    ∧ (monitor_temperatures_json env n ts).sampled = List.range (t + 1)
    ∧ (∃ rest, (monitor_temperatures_json env n ts).output
        = .jsonOpen ts :: rest)
    ∧ run_monitoring_loop menv.loopEnv n (fuel + 1) 0
        = (some (-1), [.cycle 0 (monitor_temperatures_table env n)])
    ∧ run_json_loop menv.loopEnv n (fuel + 1) 0
        = (some (-1), [.cycle 0 (monitor_temperatures_json env n ts)])
    ∧ (main_model [] menv).1 = some 1
    ∧ count_cycles (main_model [] menv).2 = 1
    ∧ (main_model ["--json"] menv).1 = some 1
    ∧ count_cycles (main_model ["--json"] menv).2 = 1 := by
  have hok0 : ∀ j, j < t → ∃ s, get_gpu_temps env (0 + j) = .ok s := by
    intro j hj
    simpa using hok j hj
  have hf0 : get_gpu_temps env (0 + t) = .error e := by simpa using hf
  have htab := table_rows_fail env e t 0 n hok0 hf0 ht
  have hjson := json_devices_fail env e t 0 n true hok0 hf0 ht
  have hrange : (List.range (t + 1)).map (0 + ·) = List.range (t + 1) := by simp
  have h1 : (monitor_temperatures_table env n).status = -1 := by
    simp [monitor_temperatures_table, htab.1]
  have h2 : (monitor_temperatures_table env n).sampled = List.range (t + 1) := by
    simp [monitor_temperatures_table, htab.1, htab.2, hrange]
  have h3 : (monitor_temperatures_table env n).output = [] := by
    simp [monitor_temperatures_table, htab.1]
  have h4 : (monitor_temperatures_json env n ts).status = -1 := by
    simp [monitor_temperatures_json, hjson.1]
  have h5 : (monitor_temperatures_json env n ts).sampled = List.range (t + 1) := by
    simp [monitor_temperatures_json, hjson.1, hjson.2, hrange]
  have hloopT : run_monitoring_loop menv.loopEnv n (fuel + 1) 0
      = (some (-1), [.cycle 0 (monitor_temperatures_table env n)]) := by
    simp [run_monitoring_loop, hrun, hle, h1]
  have hloopJ : run_json_loop menv.loopEnv n (fuel + 1) 0
      = (some (-1), [.cycle 0 (monitor_temperatures_json env n ts)]) := by
    simp [run_json_loop, hrun, hle, hts, h4]
  have hmainT : main_model [] menv
      = (some 1, [.termSetup true, .cursorHide, .monInit true,
          .ev (.cycle 0 (monitor_temperatures_table env n))]) := by
    unfold main_model
    simp [parse_args, hterm, hinit, hcount, hfuel, hloopT]
  have hmainJ : main_model ["--json"] menv
      = (some 1, [.monInit true,
          .ev (.cycle 0 (monitor_temperatures_json env n ts))]) := by
    unfold main_model
    simp [parse_args, hterm, hinit, hcount, hfuel, hloopJ]
  refine ⟨h1, h2, h3, h4, h5, ⟨_, rfl⟩, hloopT, hloopJ, ?_, ?_, ?_, ?_⟩
  · rw [hmainT]
  · rw [hmainT]
    rfl
  · rw [hmainJ]
  · rw [hmainJ]
    rfl

/-- Loop environment for the C3 witness: cycle 0 uses `c3_env`. -/
def c3_lenv : LoopEnv := ⟨fun _ => c3_env, fun _ => 0, fun _ => false, fun _ => true⟩

/-- Main environment for the C3 witness: two devices, everything else
succeeds. -/
def c3_menv : MainEnv := ⟨true, true, true, true, true, 2, c3_lenv, 3⟩

/-- Witness for C3: with a failure at device 1 of 2 the table cycle
renders nothing and continuous table mode exits with status 1. -/
theorem cycle_failure_aborts_witness :
    (monitor_temperatures_table c3_env 2).output = []
    ∧ (main_model [] c3_menv).1 = some 1 := by
  have h := cycle_failure_aborts c3_env c3_menv 2 1 2 .handleLookup 0
    (by
      intro j hj
      have hj0 : j = 0 := by omega
      subst hj0
      exact ⟨⟨45, 50, 50⟩, rfl⟩)
    rfl (by omega) rfl rfl rfl rfl rfl rfl rfl
  exact ⟨h.2.2.1, h.2.2.2.2.2.2.2.2.1⟩

/-! ### Theorems for C6 -/

/-- Loop environment for the C6 counterexample: every cycle succeeds, a
keystroke arrives during iteration 1's wait. -/
def c6_lenv : LoopEnv :=
  ⟨fun _ => good_env, fun _ => 0, fun k => k == 1, fun _ => true⟩

/-- C6 counterexample: over the same environment, the delay events of
the table loop are exactly the bounded one-second input waits, but the
records loop inserts an additional one-second `sleep` between its
cycles — so the inter-cycle delay is not "exactly the single bounded
one-second console-input wait" in both loops. -/
theorem json_loop_extra_sleep_cex :
    delay_events (run_monitoring_loop c6_lenv 1 2 0).2
      = [.wait 1000 false, .wait 1000 true]
    ∧ delay_events (run_json_loop c6_lenv 1 2 0).2
      = [.wait 1000 false, .sleepSec 1, .wait 1000 true] := by
  exact ⟨rfl, rfl⟩

/-- C6 (amended): both loops run on the same one-second refresh
constant, and the bounded console-input wait is the immediate
cancellation trigger in both — a keystroke ends the wait and the loop
at once, otherwise the interval elapses and the next cycle follows.
But only the table loop's inter-cycle delay is exactly that single
bounded wait: the records loop additionally sleeps one further second
after every wait that saw no keystroke. -/
theorem loop_delay_structure (lenv : LoopEnv) (n fuel k : Nat)
    (hrun : lenv.runningAt k = true)
    (htab : (monitor_temperatures_table (lenv.sampleEnv k) n).status = 0)
    (hjson : (monitor_temperatures_json (lenv.sampleEnv k) n (lenv.ts k)).status = 0) :
    REFRESH_DURATION = 1
    ∧ (lenv.keyAt k = false →
        run_monitoring_loop lenv n (fuel + 1) k
          = ((run_monitoring_loop lenv n fuel (k + 1)).1,
              .cycle k (monitor_temperatures_table (lenv.sampleEnv k) n)
                :: .wait (REFRESH_DURATION * 1000) false
                :: (run_monitoring_loop lenv n fuel (k + 1)).2)
        ∧ run_json_loop lenv n (fuel + 1) k
          = ((run_json_loop lenv n fuel (k + 1)).1,
              .cycle k (monitor_temperatures_json (lenv.sampleEnv k) n (lenv.ts k))
                :: .wait (REFRESH_DURATION * 1000) false
                :: .sleepSec REFRESH_DURATION
                :: (run_json_loop lenv n fuel (k + 1)).2))
    ∧ (lenv.keyAt k = true →
        run_monitoring_loop lenv n (fuel + 1) k
          = (some 0,
              [.cycle k (monitor_temperatures_table (lenv.sampleEnv k) n),
                .wait (REFRESH_DURATION * 1000) true,
                .out (.cursorDown (n + 2)), .out .blankLine])
        ∧ run_json_loop lenv n (fuel + 1) k
          = (some 0,
              [.cycle k (monitor_temperatures_json (lenv.sampleEnv k) n (lenv.ts k)),
                .wait (REFRESH_DURATION * 1000) true])) := by
  refine ⟨rfl, fun hkey => ⟨?_, ?_⟩, fun hkey => ⟨?_, ?_⟩⟩ <;>
    simp [run_monitoring_loop, run_json_loop, hrun, htab, hjson, hkey]

/-- Loop environment for the C6 witness: a keystroke during the first
wait. -/
def c6w_lenv : LoopEnv :=
  ⟨fun _ => good_env, fun _ => 0, fun _ => true, fun _ => true⟩

/-- Witness for C6: a keystroke during the first wait ends the records
loop at once, with no sleep after the cancelled wait. -/
theorem loop_delay_structure_witness :
    run_json_loop c6w_lenv 1 1 0
      = (some 0,
          [.cycle 0 (monitor_temperatures_json (c6w_lenv.sampleEnv 0) 1 (c6w_lenv.ts 0)),
            .wait (REFRESH_DURATION * 1000) true]) :=
  ((loop_delay_structure c6w_lenv 1 0 0 rfl rfl rfl).2.2 rfl).2

/-! ### Theorems for C8 -/

/-- The scan is unaffected by a prefix of `--json`/`--once` flags except
for the flag state it threads through. -/
theorem parse_args_result (pre : List String) :
    ∀ (rest : List String) (fmt : OutputFormat) (mode : OutputMode),
      (∀ b ∈ pre, b = "--json" ∨ b = "--once") →
      ∃ fmt2 mode2, parse_args (pre ++ rest) fmt mode = parse_args rest fmt2 mode2 := by
  induction pre with
  | nil =>
    intro rest fmt mode _
    exact ⟨fmt, mode, rfl⟩
  | cons a pre ih =>
    intro rest fmt mode hpre
    rcases hpre a (by simp) with h | h <;> subst h
    · obtain ⟨f2, m2, hh⟩ := ih rest .FORMAT_JSON mode (fun b hb => hpre b (by simp [hb]))
      refine ⟨f2, m2, ?_⟩
      calc parse_args (("--json" :: pre) ++ rest) fmt mode
          = parse_args (pre ++ rest) .FORMAT_JSON mode := rfl
        _ = parse_args rest f2 m2 := hh
    · obtain ⟨f2, m2, hh⟩ := ih rest fmt .MODE_ONCE (fun b hb => hpre b (by simp [hb]))
      refine ⟨f2, m2, ?_⟩
      calc parse_args (("--once" :: pre) ++ rest) fmt mode
          = parse_args (pre ++ rest) fmt .MODE_ONCE := rfl
        _ = parse_args rest f2 m2 := hh

/-- C8 (amended): the argument scan is left to right and the first
argument outside `--json`/`--once` decides: if it is `--help`, usage is
printed and the process exits 0; if it is any other flag, a diagnostic
and usage are printed to standard error and the process exits 1 — in
both cases before any terminal setup, initialization or sampling (the
trace holds nothing else). -/
theorem args_scan_first_wins (args : List String) (env : MainEnv) :
    (∀ pre post, args = pre ++ "--help" :: post →
      (∀ b ∈ pre, b = "--json" ∨ b = "--once") →
      main_model args env = (some 0, [.usage]))
    ∧ (∀ pre a post, args = pre ++ a :: post →
      (∀ b ∈ pre, b = "--json" ∨ b = "--once") →
      a ≠ "--json" → a ≠ "--once" → a ≠ "--help" →
      main_model args env = (some 1, [.unknownArgMsg a, .usage])) := by
  constructor
  · intro pre post heq hpre
    subst heq
    obtain ⟨f2, m2, hp⟩ :=
      parse_args_result pre ("--help" :: post) .FORMAT_TABLE .MODE_CONTINUOUS hpre
    have hh : parse_args ("--help" :: post) f2 m2 = .helpExit := by
      unfold parse_args
      rw [if_neg (by decide), if_neg (by decide), if_pos rfl]
    unfold main_model
    rw [hp, hh]
  · intro pre a post heq hpre h1 h2 h3
    subst heq
    obtain ⟨f2, m2, hp⟩ :=
      parse_args_result pre (a :: post) .FORMAT_TABLE .MODE_CONTINUOUS hpre
    have hh : parse_args (a :: post) f2 m2 = .unknownExit a := by
      unfold parse_args
      rw [if_neg h1, if_neg h2, if_neg h3]
    unfold main_model
    rw [hp, hh]

/-- A main environment where every external step succeeds, with one
device. -/
def mainW : MainEnv :=
  ⟨true, true, true, true, true, 1,
    ⟨fun _ => good_env, fun _ => 0, fun _ => false, fun _ => true⟩, 3⟩

/-- C8 counterexample: this argument list contains `--help`, yet the
process exits 1 because an unknown flag precedes it — refuting "if it
contains `--help`, the process exits 0" as stated. -/
theorem help_after_unknown_cex :
    "--help" ∈ ["--bad", "--help"]
    ∧ main_model ["--bad", "--help"] mainW
        = (some 1, [.unknownArgMsg "--bad", .usage]) := by
  exact ⟨by simp, rfl⟩

/-- Witness for C8: `--json --help` exits 0 printing usage only;
`--json --bad` exits 1 printing the diagnostic and usage. -/
theorem args_scan_first_wins_witness :
    main_model ["--json", "--help"] mainW = (some 0, [.usage])
    ∧ main_model ["--json", "--bad"] mainW
        = (some 1, [.unknownArgMsg "--bad", .usage]) := by
  refine ⟨?_, ?_⟩
  · exact (args_scan_first_wins ["--json", "--help"] mainW).1 ["--json"] [] rfl
      (fun b hb => Or.inl (List.mem_singleton.mp hb))
  · exact (args_scan_first_wins ["--json", "--bad"] mainW).2 ["--json"] "--bad" [] rfl
      (fun b hb => Or.inl (List.mem_singleton.mp hb))
      (by decide) (by decide) (by decide)

/-! ### Theorems for C9 -/

/-- C9: with the `--once` flag, in either output format, `main` performs
exactly one sampling-and-render cycle and exits with code 0 when that
cycle succeeds. -/
theorem once_single_cycle (args : List String) (env : MainEnv)
    (fmt : OutputFormat)
    (hp : parse_args args .FORMAT_TABLE .MODE_CONTINUOUS = .proceed fmt .MODE_ONCE)
    (hterm : env.terminalOk = true)
    (hinit : init_monitoring env = true)
    (hct : fmt = .FORMAT_TABLE →
      (monitor_temperatures_table (env.loopEnv.sampleEnv 0) env.deviceCount).status = 0)
    (hcj : fmt = .FORMAT_JSON →
      (monitor_temperatures_json (env.loopEnv.sampleEnv 0) env.deviceCount
        (env.loopEnv.ts 0)).status = 0) :
    (main_model args env).1 = some 0
    ∧ count_cycles (main_model args env).2 = 1 := by
  unfold main_model
  rw [hp]
  cases fmt
  · have hc := hct rfl
    simp [hterm, hinit, hc, count_cycles]
  · have hc := hcj rfl
    simp [hterm, hinit, hc, count_cycles]

/-- Witness for C9: `--once` with one healthy device exits 0 after
exactly one table cycle. -/
theorem once_single_cycle_witness :
    (main_model ["--once"] mainW).1 = some 0
    ∧ count_cycles (main_model ["--once"] mainW).2 = 1 :=
  once_single_cycle ["--once"] mainW .FORMAT_TABLE rfl rfl rfl
    (fun _ => rfl) (fun h => nomatch h)
